import Mathlib

/-!
Verification of the query-construction layer of the Airbnb-Data-Analysis
desktop tool ("Phase 2"). The definitions below are a shallow embedding of
the relevant parts of `app.py` (parameter gathering, validation/coercion,
WHERE / ORDER BY clause building, template slot substitution, the startup
environment check, the query worker's completion protocol, and the
analysis-result presenter) and of the full query catalog of `queries.py`.
Machine reals (Python `float`) are modelled as rationals: every value the
development evaluates on is an exactly representable decimal.
-/

namespace Airbnb

deriving instance DecidableEq for Except

/-- Parameter kinds as used in `queries.py` param lists: Python `int`,
`float`, or anything else (left as text by `runQuery`, which only converts
`int` and `float`). -/
inductive ParamKind
  | pint
  | pfloat
  | ptext
deriving DecidableEq, Repr

/-- A typed bound-parameter value, as produced by the coercion in
`MainWindow.runQuery` (app.py lines 599-625). Python floats are modelled
as rationals. -/
inductive Value
  | vInt (i : Int)
  | vFloat (q : ℚ)
  | vStr (s : String)
deriving DecidableEq, Repr

/-- One declared parameter of a catalog entry: `(name, prompt, type)` in
`queries.py`. -/
structure ParamSpec where
  name : String
  prompt : String
  kind : ParamKind
deriving DecidableEq, Repr

/-- One entry of the `queries` dict of `queries.py`. -/
structure CatalogEntry where
  id : Nat
  description : String
  sql : String
  params : List ParamSpec
  sortable_columns : List String
deriving DecidableEq, Repr

/-- Numeric value of a list of ASCII digits, most significant first. -/
def digitsVal (l : List Char) : Nat :=
  l.foldl (fun a c => a * 10 + (c.toNat - 48)) 0

/-- All characters are ASCII decimal digits. -/
def allDigits (l : List Char) : Bool :=
  l.all (fun c => c.isDigit)

/-- Python `str.strip()`: remove leading and trailing whitespace
(structural, so it evaluates inside the kernel). -/
def pyStrip (s : String) : String :=
  String.mk (((s.data.dropWhile Char.isWhitespace).reverse.dropWhile Char.isWhitespace).reverse)

/-- Python `s.startswith(pat)`. -/
def startsWithL (s pat : String) : Bool :=
  pat.data.isPrefixOf s.data

/-- One pass of Python `str.replace(pat, repl)` for non-empty `pat`:
every non-overlapping occurrence, left to right. Fuel-indexed (one unit
per consumed head character) so the scan is structurally recursive. -/
def replaceAllAux (pat repl : List Char) : Nat → List Char → List Char
  | _, [] => []
  | 0, _ :: _ => []
  | fuel + 1, c :: cs =>
    if pat.isPrefixOf (c :: cs) && !pat.isEmpty then
      repl ++ replaceAllAux pat repl fuel (cs.drop (pat.length - 1))
    else
      c :: replaceAllAux pat repl fuel cs

/-- Python `s.replace(pat, repl)`. -/
def pyReplace (s pat repl : String) : String :=
  String.mk (replaceAllAux pat.data repl.data s.data.length s.data)

/-- Python `sep.join(parts)`: the parts with `sep` between consecutive
ones. -/
def joinSep (sep : String) : List String → String
  | [] => ""
  | [x] => x
  | x :: y :: rest => x ++ sep ++ joinSep sep (y :: rest)

/-- Model of Python `int(s)` on an already-stripped string: an optional
sign followed by one or more base-10 digits (`None` when parsing fails,
modelling the `ValueError`). -/
def pyIntParse (s : String) : Option Int :=
  match s.data with
  | [] => none
  | c :: cs =>
    if c = '-' then
      if cs ≠ [] ∧ allDigits cs then some (-(digitsVal cs : Int)) else none
    else if c = '+' then
      if cs ≠ [] ∧ allDigits cs then some (digitsVal cs) else none
    else
      if allDigits (c :: cs) then some (digitsVal (c :: cs)) else none

/-- Unsigned part of Python `float(s)`: digits, an optional decimal point,
and fractional digits, with at least one digit present. The result is the
exact rational denoted by the decimal literal. -/
def pyFloatParseCore (l : List Char) : Option ℚ :=
  let intPart := l.takeWhile (fun c => c.isDigit)
  let rest := l.dropWhile (fun c => c.isDigit)
  match rest with
  | [] => if intPart = [] then none else some (mkRat (digitsVal intPart) 1)
  | '.' :: fracPart =>
    if allDigits fracPart ∧ (intPart ≠ [] ∨ fracPart ≠ []) then
      some (mkRat (digitsVal intPart * 10 ^ fracPart.length + digitsVal fracPart) (10 ^ fracPart.length))
    else none
  | _ => none

/-- Model of Python `float(s)` on an already-stripped string, restricted to
plain decimal notation (the forms the application's numeric fields use). -/
def pyFloatParse (s : String) : Option ℚ :=
  match s.data with
  | [] => none
  | c :: cs =>
    if c = '-' then (pyFloatParseCore cs).map (fun q => -q)
    else if c = '+' then pyFloatParseCore cs
    else pyFloatParseCore (c :: cs)

/-- Coercion of one non-empty raw value in `MainWindow.runQuery`
(app.py lines 602-613): `int` and `float` params are converted, with the
source's exact `ValueError` message on failure (the field name with
underscores replaced by spaces); any other kind passes the text through. -/
def coerceParam (name : String) (kind : ParamKind) (raw : String) : Except String Value :=
  match kind with
  | ParamKind.pint =>
    match pyIntParse raw with
    | some i => Except.ok (Value.vInt i)
    | none => Except.error ("Invalid integer value for \x22" ++ pyReplace name "_" " " ++ "\x22.")
  | ParamKind.pfloat =>
    match pyFloatParse raw with
    | some q => Except.ok (Value.vFloat q)
    | none => Except.error ("Invalid float value for \x22" ++ pyReplace name "_" " " ++ "\x22.")
  | ParamKind.ptext => Except.ok (Value.vStr raw)

/-- The WHERE fragment `runQuery` appends for one bound parameter
(app.py lines 616-623): the column — the parameter name with every
occurrence of `min_` / `max_` removed by `str.replace` — is emitted inside
double quotes, compared against the named bind placeholder. -/
def whereFragment (name : String) : String :=
  if startsWithL name "min_" then
    "\x22" ++ pyReplace name "min_" "" ++ "\x22 >= :" ++ name
  else if startsWithL name "max_" then
    "\x22" ++ pyReplace name "max_" "" ++ "\x22 <= :" ++ name
  else
    "\x22" ++ name ++ "\x22 = :" ++ name

/-- The parameter-gathering loop of `MainWindow.runQuery`
(app.py lines 599-625) over `(name, type, raw text)` triples in insertion
order: each raw value is stripped; an empty value is skipped entirely;
a non-empty value is coerced (first failure aborts with the `ValueError`
message) and contributes one WHERE fragment and one binding. -/
def processParams : List (String × ParamKind × String) → Except String (List String × List (String × Value))
  | [] => Except.ok ([], [])
  | (name, kind, rawText) :: rest =>
    let v := pyStrip rawText
    if v = "" then processParams rest
    else
      match coerceParam name kind v with
      | Except.error e => Except.error e
      | Except.ok val =>
        match processParams rest with
        | Except.error e => Except.error e
        | Except.ok (ws, ps) => Except.ok (whereFragment name :: ws, (name, val) :: ps)

/-- WHERE-clause assembly (app.py lines 627-632): `'WHERE ' + ' AND '.join(...)`
when any fragment exists, else the empty string. -/
def whereClauseOf (ws : List String) : String :=
  if ws.isEmpty then "" else "WHERE " ++ joinSep " AND " ws

/-- ORDER-BY-clause assembly (app.py lines 634-643): a non-empty sort
column that is a member of the entry's `sortable_columns` is emitted,
double-quoted, with `ASC` when the order combo text is `Ascending` and
`DESC` otherwise; any other sort column yields the empty clause. -/
def orderByClauseOf (sortColumn sortOrder : String) (sortable : List String) : String :=
  if sortColumn != "" && sortable.contains sortColumn then
    "ORDER BY \x22" ++ sortColumn ++ "\x22 " ++ (if sortOrder == "Ascending" then "ASC" else "DESC")
  else ""

/-- The `\x7bwhere_clause\x7d` format slot, as a character list. -/
def whereSlot : List Char := "\x7bwhere_clause\x7d".data

/-- The `\x7border_by_clause\x7d` format slot, as a character list. -/
def orderBySlot : List Char := "\x7border_by_clause\x7d".data

/-- Slot substitution with explicit fuel (one unit per consumed head
character), so that the function is structurally recursive and evaluates
inside the kernel; with `fuel ≥ l.length` the fuel never runs out. -/
def substSlotsAux (wc obc : String) : Nat → List Char → List Char
  | _, [] => []
  | 0, _ :: _ => []
  | fuel + 1, c :: cs =>
    if whereSlot.isPrefixOf (c :: cs) then
      wc.data ++ substSlotsAux wc obc fuel (cs.drop (whereSlot.length - 1))
    else if orderBySlot.isPrefixOf (c :: cs) then
      obc.data ++ substSlotsAux wc obc fuel (cs.drop (orderBySlot.length - 1))
    else
      c :: substSlotsAux wc obc fuel cs

/-- Model of `base_sql.format(where_clause=..., order_by_clause=...)`
(app.py line 646) on the templates in use: a single left-to-right pass
replacing each of the two slots with its value (replacement text is not
rescanned, as in Python `str.format`). -/
def substSlots (wc obc : String) (l : List Char) : List Char :=
  substSlotsAux wc obc l.length l

/-- String-level wrapper of `substSlots`. -/
def pyFormat (t wc obc : String) : String :=
  String.mk (substSlots wc obc t.data)

/-- Fuel-indexed substitution of the order-by slot only, consuming fuel in
lockstep with `substSlotsAux`. -/
def substOrderByOnlyAux (obc : String) : Nat → List Char → List Char
  | _, [] => []
  | 0, _ :: _ => []
  | fuel + 1, c :: cs =>
    if orderBySlot.isPrefixOf (c :: cs) then
      obc.data ++ substOrderByOnlyAux obc fuel (cs.drop (orderBySlot.length - 1))
    else
      c :: substOrderByOnlyAux obc fuel cs

/-- Substitution of the order-by slot only, leaving everything else of the
template untouched (the reference behaviour for templates that contain no
`\x7bwhere_clause\x7d` slot). -/
def substOrderByOnly (obc : String) (l : List Char) : List Char :=
  substOrderByOnlyAux obc l.length l

/-- String-level wrapper of `substOrderByOnly`. -/
def pyFormatOrderByOnly (t obc : String) : String :=
  String.mk (substOrderByOnly obc t.data)

/-- `pat` occurs as a contiguous substring of `l`. -/
def hasSubL (pat : List Char) : List Char → Bool
  | [] => pat.isPrefixOf ([] : List Char)
  | c :: cs => pat.isPrefixOf (c :: cs) || hasSubL pat cs

/-- `pat` occurs as a contiguous substring of `s`. -/
def hasSubstr (s pat : String) : Bool :=
  hasSubL pat.data s.data

/-- The final statement assembled by `MainWindow.runQuery`: the formatted
SQL text (app.py lines 645-647) and the bound parameters dict. -/
structure FinalStatement where
  text : String
  bound : List (String × Value)
deriving DecidableEq, Repr

/-- The query-construction pipeline of `MainWindow.runQuery`
(app.py lines 592-657): gather/validate/coerce the parameters, assemble
the WHERE and ORDER BY clauses, substitute the template slots, and hand
the statement plus bindings to the executor; a `ValueError` during
validation is caught (app.py lines 659-661) and the query is not
dispatched. -/
def runQuery (entry : CatalogEntry) (rawInputs : List (String × ParamKind × String))
    (sortColumn sortOrder : String) : Except String FinalStatement :=
  match processParams rawInputs with
  | Except.error e => Except.error e
  | Except.ok (ws, ps) =>
    let wc := whereClauseOf ws
    let obc := orderByClauseOf sortColumn sortOrder entry.sortable_columns
    Except.ok ⟨pyFormat entry.sql wc obc, ps⟩

/-- Catalog entry 1 of `queries.py`, embedded verbatim. -/
def q1 : CatalogEntry where
  id := 1
  description := "Top 10 most affordable Airbnb listings that accommodate at least X people, offer at least Y key amenities, and are priced under ZAR X per night."
  sql := "\n            SELECT \n                name, \n                neighbourhood, \n                \x27R\x27 || TO_CHAR(price, \x27FM999,999,999.00\x27) AS price,\n                accommodates,\n                array_length(string_to_array(amenities, \x27,\x27), 1) AS amenities_count\n            FROM \n                Listings\n            WHERE \n                accommodates >= :min_guests\n                AND array_length(string_to_array(amenities, \x27,\x27), 1) >= :min_amenities\n                AND price <= :max_price\n            \x7border_by_clause\x7d\n            LIMIT 10;\n        "
  params := [
    ⟨"min_guests", "Enter minimum number of guests:", ParamKind.pint⟩,
    ⟨"min_amenities", "Enter minimum number of key amenities:", ParamKind.pint⟩,
    ⟨"max_price", "Enter maximum price per night (ZAR):", ParamKind.pfloat⟩]
  sortable_columns := ["name", "neighbourhood", "price", "accommodates", "amenities_count"]

/-- Catalog entry 2 of `queries.py`, embedded verbatim. -/
def q2 : CatalogEntry where
  id := 2
  description := "Listings for groups of X or more people with highest guest ratings within a specified price range."
  sql := "\n            SELECT \n                name,\n                neighbourhood,\n                \x27R\x27 || TO_CHAR(price, \x27FM999,999,999.00\x27) AS price,\n                review_scores_rating,\n                accommodates\n            FROM \n                Listings\n            WHERE \n                accommodates >= :min_guests\n                AND price BETWEEN :min_price AND :max_price\n                AND review_scores_rating IS NOT NULL\n            \x7border_by_clause\x7d\n            LIMIT 10;\n        "
  params := [
    ⟨"min_guests", "Enter minimum number of guests:", ParamKind.pint⟩,
    ⟨"min_price", "Enter minimum price per night (ZAR):", ParamKind.pfloat⟩,
    ⟨"max_price", "Enter maximum price per night (ZAR):", ParamKind.pfloat⟩]
  sortable_columns := ["name", "neighbourhood", "price", "review_scores_rating", "accommodates"]

/-- Catalog entry 3 of `queries.py`, embedded verbatim. -/
def q3 : CatalogEntry where
  id := 3
  description := "Neighbourhoods with the highest concentration of budget-friendly listings that accommodate X to Y people and have positive ratings."
  sql := "\n            SELECT \n                l.neighbourhood,\n                COUNT(*) AS budget_friendly_listings\n            FROM \n                Listings l,\n                average_price ap\n            WHERE \n                l.accommodates BETWEEN :min_guests AND :max_guests\n                AND l.price < ap.avg_price\n                AND l.review_scores_rating > :rating_threshold\n            GROUP BY \n                l.neighbourhood\n            \x7border_by_clause\x7d;\n        "
  params := [
    ⟨"min_guests", "Enter minimum number of guests:", ParamKind.pint⟩,
    ⟨"max_guests", "Enter maximum number of guests:", ParamKind.pint⟩,
    ⟨"rating_threshold", "Enter minimum review score rating (e.g., 3):", ParamKind.pfloat⟩]
  sortable_columns := ["neighbourhood", "budget_friendly_listings"]

/-- Catalog entry 4 of `queries.py`, embedded verbatim. -/
def q4 : CatalogEntry where
  id := 4
  description := "Average nightly price for listings in each neighbourhood that can accommodate a group."
  sql := "\n            SELECT \n                neighbourhood,\n                ROUND(AVG(price), 2) AS average_nightly_price\n            FROM \n                Listings\n            WHERE \n                accommodates >= :group_size\n            GROUP BY \n                neighbourhood\n            \x7border_by_clause\x7d;\n        "
  params := [
    ⟨"group_size", "Enter group size (number of people):", ParamKind.pint⟩]
  sortable_columns := ["neighbourhood", "average_nightly_price"]

/-- Catalog entry 5 of `queries.py`, embedded verbatim. -/
def q5 : CatalogEntry where
  id := 5
  description := "Best value listings based on price per person per night for groups of X people."
  sql := "\n            SELECT \n                name,\n                neighbourhood,\n                \x27R\x27 || TO_CHAR(price, \x27FM999,999,999.00\x27) AS price,\n                accommodates,\n                ROUND(price / :group_size, 2) AS price_per_person\n            FROM \n                Listings\n            WHERE \n                accommodates >= :group_size\n                AND price IS NOT NULL\n            \x7border_by_clause\x7d\n            LIMIT 10;\n        "
  params := [
    ⟨"group_size", "Enter group size (number of people):", ParamKind.pint⟩]
  sortable_columns := ["name", "neighbourhood", "price", "accommodates", "price_per_person"]

/-- Catalog entry 6 of `queries.py`, embedded verbatim. -/
def q6 : CatalogEntry where
  id := 6
  description := "Neighbourhoods offering the best value for families with listings under ZAR X per night, considering key amenities."
  sql := "\n            SELECT \n                neighbourhood,\n                ROUND(AVG(price), 2) AS average_price,\n                COUNT(*) AS listings_count\n            FROM \n                Listings\n            WHERE \n                accommodates >= :min_guests\n                AND price <= :max_price\n                AND array_length(string_to_array(amenities, \x27,\x27), 1) >= :min_amenities\n            GROUP BY \n                neighbourhood\n            \x7border_by_clause\x7d\n            LIMIT 10;\n        "
  params := [
    ⟨"min_guests", "Enter minimum number of guests (e.g., for families):", ParamKind.pint⟩,
    ⟨"max_price", "Enter maximum price per night (ZAR):", ParamKind.pfloat⟩,
    ⟨"min_amenities", "Enter minimum number of key amenities:", ParamKind.pint⟩]
  sortable_columns := ["neighbourhood", "average_price", "listings_count"]

/-- Catalog entry 7 of `queries.py`, embedded verbatim. -/
def q7 : CatalogEntry where
  id := 7
  description := "Compare average prices of listings that accommodate X people in top-rated areas versus less popular areas."
  sql := "\n            WITH top_vs_less AS (\n                SELECT \n                    l.neighbourhood,\n                    CASE \n                        WHEN nr.avg_rating >= :rating_threshold THEN \x27Top-rated\x27\n                        ELSE \x27Less popular\x27\n                    END AS area_type,\n                    l.price\n                FROM \n                    Listings l\n                JOIN \n                    neighbourhood_ratings nr ON l.neighbourhood = nr.neighbourhood\n                WHERE \n                    l.accommodates >= :group_size\n                    AND l.price IS NOT NULL\n            )\n            SELECT \n                area_type,\n                ROUND(AVG(price), 2) AS average_price\n            FROM \n                top_vs_less\n            GROUP BY \n                area_type\n            \x7border_by_clause\x7d;\n        "
  params := [
    ⟨"rating_threshold", "Enter rating threshold to define top-rated areas (e.g., 4):", ParamKind.pfloat⟩,
    ⟨"group_size", "Enter group size (number of people):", ParamKind.pint⟩]
  sortable_columns := ["area_type", "average_price"]

/-- Catalog entry 8 of `queries.py`, embedded verbatim. -/
def q8 : CatalogEntry where
  id := 8
  description := "Listings for groups of X people with the most consistent positive guest feedback and priced below the citywide average of ZAR X per night."
  sql := "\n            SELECT \n                l.name,\n                l.neighbourhood,\n                \x27R\x27 || TO_CHAR(l.price, \x27FM999,999,999.00\x27) AS price,\n                l.review_scores_rating,\n                l.accommodates\n            FROM \n                Listings l,\n                average_price ap\n            WHERE \n                l.accommodates >= :group_size\n                AND l.price < ap.avg_price\n                AND l.review_scores_rating > :rating_threshold\n            \x7border_by_clause\x7d\n            LIMIT 10;\n        "
  params := [
    ⟨"group_size", "Enter group size (number of people):", ParamKind.pint⟩,
    ⟨"rating_threshold", "Enter minimum review score rating:", ParamKind.pfloat⟩]
  sortable_columns := ["name", "neighbourhood", "price", "review_scores_rating", "accommodates"]

/-- Catalog entry 9 of `queries.py`, embedded verbatim. -/
def q9 : CatalogEntry where
  id := 9
  description := "Relationship between listing price and the number of amenities in the most popular neighbourhoods for large groups, focusing on listings under ZAR X per night."
  sql := "\n            SELECT \n                l.name,\n                l.neighbourhood,\n                \x27R\x27 || TO_CHAR(l.price, \x27FM999,999,999.00\x27) AS price,\n                array_length(string_to_array(l.amenities, \x27,\x27), 1) AS amenities_count\n            FROM \n                Listings l\n            JOIN \n                top_neighbourhoods tn ON l.neighbourhood = tn.neighbourhood\n            WHERE \n                l.accommodates >= :group_size\n                AND l.price < :max_price\n            \x7border_by_clause\x7d;\n        "
  params := [
    ⟨"group_size", "Enter group size (number of people):", ParamKind.pint⟩,
    ⟨"max_price", "Enter maximum price per night (ZAR):", ParamKind.pfloat⟩]
  sortable_columns := ["name", "neighbourhood", "price", "amenities_count"]

/-- Catalog entry 10 of `queries.py`, embedded verbatim. -/
def q10 : CatalogEntry where
  id := 10
  description := "Best value listings in under-served areas based on guest ratings and price for groups of X people, particularly those under ZAR X per night."
  sql := "\n            SELECT \n                l.name,\n                l.neighbourhood,\n                \x27R\x27 || TO_CHAR(l.price, \x27FM999,999,999.00\x27) AS price,\n                l.review_scores_rating,\n                l.accommodates\n            FROM \n                Listings l\n            JOIN \n                under_served_neighbourhoods usn ON l.neighbourhood = usn.neighbourhood\n            WHERE \n                l.accommodates >= :group_size\n                AND l.price < :max_price\n                AND l.review_scores_rating > :rating_threshold\n            \x7border_by_clause\x7d\n            LIMIT 10;\n        "
  params := [
    ⟨"group_size", "Enter group size (number of people):", ParamKind.pint⟩,
    ⟨"max_price", "Enter maximum price per night (ZAR):", ParamKind.pfloat⟩,
    ⟨"rating_threshold", "Enter minimum review score rating:", ParamKind.pfloat⟩]
  sortable_columns := ["name", "neighbourhood", "price", "review_scores_rating", "accommodates"]

/-- Catalog entry 11 of `queries.py`, embedded verbatim. -/
def q11 : CatalogEntry where
  id := 11
  description := "Airbnb listings sorted by specified criteria with filtering and sorting options."
  sql := "\n            SELECT \n                name,\n                neighbourhood,\n                \x27R\x27 || TO_CHAR(price, \x27FM999,999,999.00\x27) AS price,\n                accommodates\n            FROM \n                Listings\n            WHERE \n                price IS NOT NULL\n            \x7border_by_clause\x7d\n            LIMIT 100 OFFSET 0;\n        "
  params := []
  sortable_columns := ["name", "neighbourhood", "price", "accommodates"]

/-- Catalog entry 13 of `queries.py`, embedded verbatim. -/
def q13 : CatalogEntry where
  id := 13
  description := "Airbnb listings rated X stars or higher."
  sql := "\n            SELECT \n                name,\n                neighbourhood,\n                \x27R\x27 || TO_CHAR(price, \x27FM999,999,999.00\x27) AS price,\n                review_scores_rating,\n                accommodates\n            FROM \n                Listings\n            WHERE \n                review_scores_rating >= :min_rating\n            \x7border_by_clause\x7d\n            LIMIT 100 OFFSET 0;\n        "
  params := [
    ⟨"min_rating", "Enter minimum review score rating:", ParamKind.pfloat⟩]
  sortable_columns := ["name", "neighbourhood", "price", "review_scores_rating", "accommodates"]

/-- Catalog entry 14 of `queries.py`, embedded verbatim. -/
def q14 : CatalogEntry where
  id := 14
  description := "Listings ranked by a weighted score (Price 60%, Rating 40%) to balance affordability and guest satisfaction."
  sql := "\n            WITH price_stats AS (\n                SELECT \n                    MIN(price) AS min_price,\n                    MAX(price) AS max_price\n                FROM \n                    Listings\n                WHERE \n                    price IS NOT NULL\n            ), rating_stats AS (\n                SELECT \n                    MIN(review_scores_rating) AS min_rating,\n                    MAX(review_scores_rating) AS max_rating\n                FROM \n                    Listings\n                WHERE \n                    review_scores_rating IS NOT NULL\n            )\n            SELECT \n                l.name,\n                l.neighbourhood,\n                \x27R\x27 || TO_CHAR(l.price, \x27FM999,999,999.00\x27) AS price,\n                l.review_scores_rating,\n                ROUND(\n                    0.6 * (1 - ((l.price - ps.min_price) / NULLIF(ps.max_price - ps.min_price, 0))) +\n                    0.4 * ((l.review_scores_rating - rs.min_rating) / NULLIF(rs.max_rating - rs.min_rating, 0)),\n                    2\n                ) AS weighted_score\n            FROM \n                Listings l\n            CROSS JOIN \n                price_stats ps\n            CROSS JOIN \n                rating_stats rs\n            WHERE \n                l.price IS NOT NULL\n                AND l.review_scores_rating IS NOT NULL\n            \x7border_by_clause\x7d\n            LIMIT 100 OFFSET 0;\n        "
  params := []
  sortable_columns := ["name", "neighbourhood", "price", "review_scores_rating", "weighted_score"]

/-- Catalog entry 15 of `queries.py`, embedded verbatim. -/
def q15 : CatalogEntry where
  id := 15
  description := "Likelihood of a listing being available based on availability percentage."
  sql := "\n            SELECT \n                name,\n                neighbourhood,\n                \x27R\x27 || TO_CHAR(price, \x27FM999,999,999.00\x27) AS price,\n                availability_365,\n                ROUND((availability_365 / 365.0) * 100, 2) AS availability_percentage\n            FROM \n                Listings\n            \x7border_by_clause\x7d\n            LIMIT 100 OFFSET 0;\n        "
  params := []
  sortable_columns := ["name", "neighbourhood", "price", "availability_365", "availability_percentage"]

/-- Catalog entry 16 of `queries.py`, embedded verbatim. -/
def q16 : CatalogEntry where
  id := 16
  description := "Airbnb listings with the highest overall guest ratings."
  sql := "\n            SELECT \n                name,\n                neighbourhood,\n                \x27R\x27 || TO_CHAR(price, \x27FM999,999,999.00\x27) AS price,\n                review_scores_rating,\n                accommodates\n            FROM \n                Listings\n            WHERE \n                review_scores_rating IS NOT NULL\n            \x7border_by_clause\x7d\n            LIMIT 100 OFFSET 0;\n        "
  params := []
  sortable_columns := ["name", "neighbourhood", "price", "review_scores_rating", "accommodates"]

/-- Catalog entry 17 of `queries.py`, embedded verbatim. -/
def q17 : CatalogEntry where
  id := 17
  description := "Airbnb listings with the lowest overall guest ratings."
  sql := "\n            SELECT \n                name,\n                neighbourhood,\n                \x27R\x27 || TO_CHAR(price, \x27FM999,999,999.00\x27) AS price,\n                review_scores_rating,\n                accommodates\n            FROM \n                Listings\n            WHERE \n                review_scores_rating IS NOT NULL\n            \x7border_by_clause\x7d\n            LIMIT 100 OFFSET 0;\n        "
  params := []
  sortable_columns := ["name", "neighbourhood", "price", "review_scores_rating", "accommodates"]

/-- Catalog entry 18 of `queries.py`, embedded verbatim. -/
def q18 : CatalogEntry where
  id := 18
  description := "Listings categorized by room type with counts."
  sql := "\n            SELECT \n                room_type,\n                COUNT(*) AS listings_count\n            FROM \n                Listings\n            GROUP BY \n                room_type\n            \x7border_by_clause\x7d;\n        "
  params := []
  sortable_columns := ["room_type", "listings_count"]

/-- The query catalog of `queries.py` (dict keys in source order). -/
def queries : List CatalogEntry := [q1, q2, q3, q4, q5, q6, q7, q8, q9, q10, q11, q13, q14, q15, q16, q17, q18]

/-- An identifier character of a bind placeholder (`[A-Za-z0-9_]`, the
word characters SQLAlchemy's `text()` accepts after `:`). -/
def isIdentChar (c : Char) : Bool := c.isAlphanum || c = '_'

/-- The names referenced as `:name` bind placeholders in a SQL template:
each `:` followed by a non-empty run of identifier characters. Fuel-indexed
(one unit per consumed head character) so the scan is structurally
recursive and kernel-evaluable. -/
def extractPlaceholdersAux : Nat → List Char → List String
  | _, [] => []
  | 0, _ :: _ => []
  | fuel + 1, c :: cs =>
    if c = ':' then
      let nm := cs.takeWhile isIdentChar
      if nm = [] then extractPlaceholdersAux fuel cs
      else String.mk nm :: extractPlaceholdersAux fuel (cs.drop nm.length)
    else extractPlaceholdersAux fuel cs

/-- The placeholders of a template string. -/
def placeholdersOf (s : String) : List String :=
  extractPlaceholdersAux s.data.length s.data

/-- Modelled from the spec: `validate_and_coerce` of the "simple" variant,
whose source is not under src/ (only the "filterable" variant, app.py, is).
Per the spec every field is mandatory there: an empty raw value yields a
ValidationError naming that field; non-empty values are coerced as in the
filterable variant. -/
def validateMandatory : List (String × ParamKind × String) → Except String (List (String × Value))
  | [] => Except.ok []
  | (name, kind, rawText) :: rest =>
    let v := pyStrip rawText
    if v = "" then
      Except.error ("Missing required value for \x22" ++ pyReplace name "_" " " ++ "\x22.")
    else
      match coerceParam name kind v with
      | Except.error e => Except.error e
      | Except.ok val =>
        match validateMandatory rest with
        | Except.error e => Except.error e
        | Except.ok ps => Except.ok ((name, val) :: ps)

/-- A result set: rows of typed cells, standing for the DataFrame
`pd.read_sql_query` returns. -/
abbrev DataFrame := List (List Value)

/-- A completion notification of the query worker: the `results_ready`
or `error_occurred` signal of `QueryThread` (app.py lines 36-37). -/
inductive Notification
  | resultsReady (rows : DataFrame)
  | errorOccurred (msg : String)
deriving DecidableEq

/-- `QueryThread.run` (app.py lines 53-63): one database round-trip inside
a `try`; on success the complete result set is emitted through
`results_ready`, on any exception the error text is emitted through
`error_occurred`. The database call's outcome — external to this layer —
is the argument. -/
def queryThreadRun (db : Except String DataFrame) : List Notification :=
  match db with
  | Except.ok df => [Notification.resultsReady df]
  | Except.error e => [Notification.errorOccurred e]

/-- The display state the result paths of `MainWindow` touch: the Query
tab's results table (written by `displayResults`) and the Data Analysis
tab's chart canvas and info box (written by `displayDataAnalysisResults`). -/
structure ViewState where
  resultsTable : DataFrame
  analysisChart : Option String
  analysisInfo : String
deriving DecidableEq

/-- Whether the seaborn/matplotlib calls inside the `try` of
`displayDataAnalysisResults` raise (external to this layer). -/
inductive RenderOutcome
  | ok
  | raises
deriving DecidableEq

/-- The analysis kinds `displayDataAnalysisResults` recognises
(app.py lines 888-923). -/
def knownAnalyses : List String :=
  ["Average Price by Neighbourhood", "Distribution of Accommodations",
   "Reviews vs Price", "Host Listings Count Distribution",
   "Average Review Scores by Room Type"]

/-- The info-box text set for each recognised analysis kind
(app.py lines 893-923). -/
def infoTextFor (analysisType : String) : String :=
  if analysisType == "Average Price by Neighbourhood" then
    "This bar chart displays the average price of Airbnb listings across different neighbourhoods. Higher bars indicate more expensive areas."
  else if analysisType == "Distribution of Accommodations" then
    "This bar chart shows how Airbnb listings are distributed based on their accommodation capacity. It highlights the popularity of different accommodation sizes."
  else if analysisType == "Reviews vs Price" then
    "This scatter plot explores the relationship between listing prices and their review scores. It helps identify if higher-priced listings tend to have better reviews."
  else if analysisType == "Host Listings Count Distribution" then
    "This bar chart illustrates how many hosts have a certain number of listings. It provides insight into host activity and concentration of listings among hosts."
  else
    "This bar chart compares the average review scores across different room types. It highlights which room types tend to receive higher ratings from guests."

/-- `MainWindow.displayDataAnalysisResults` (app.py lines 875-942) as a
transformer of the display state: the analysis canvas and info box are
cleared, then a recognised analysis kind is charted (filling canvas and
info) unless the rendering raises, in which case the `except` path clears
the canvas and the info box again; an unrecognised kind warns and returns
with the canvas cleared. No branch touches the Query tab's results
table. -/
def displayDataAnalysisResults (st : ViewState) (analysisType : String)
    (outcome : RenderOutcome) : ViewState :=
  let st1 := { st with analysisChart := none, analysisInfo := "" }
  if knownAnalyses.contains analysisType then
    match outcome with
    | RenderOutcome.ok =>
      { st1 with analysisChart := some analysisType, analysisInfo := infoTextFor analysisType }
    | RenderOutcome.raises =>
      { st1 with analysisChart := none, analysisInfo := "" }
  else
    st1

/-- `MainWindow.displayResults` (app.py lines 669-695) as a transformer of
the display state: the results table is cleared and repopulated with the
DataFrame's cells. -/
def displayResults (st : ViewState) (df : DataFrame) : ViewState :=
  { st with resultsTable := df }

/-- The startup environment: the four `DB_*` variables `MainWindow.__init__`
reads with `os.getenv` (app.py lines 126-130), each present or absent. -/
structure Env where
  dbUser : Option String
  dbPassword : Option String
  dbHost : Option String
  dbName : Option String
deriving DecidableEq

/-- Python truthiness of an `os.getenv` result: `None` and the empty
string are falsy. -/
def truthy : Option String → Bool
  | none => false
  | some s => s != ""

/-- What startup does after the environment check: either the fatal
configuration path (critical message box then `sys.exit(1)`, reached
before `create_engine`, so no connection is attempted) or the attempt to
connect with the assembled URL. -/
inductive StartupOutcome
  | fatalConfig
  | attemptConnection (url : String)
deriving DecidableEq

/-- The connection URL f-string of app.py line 140. -/
def connUrl (user pw host name : String) : String :=
  "postgresql+psycopg2://" ++ user ++ ":" ++ pw ++ "@" ++ host ++ "/" ++ name

/-- The startup environment check of `MainWindow.__init__`
(app.py lines 126-148): `DB_HOST` defaults to `localhost` when absent;
if any of the four values is falsy the run is fatal before any connection,
otherwise a connection to the assembled URL is attempted. -/
def mainWindowInit (env : Env) : StartupOutcome :=
  let dbHost := env.dbHost.getD "localhost"
  if truthy env.dbUser && truthy env.dbPassword && dbHost != "" && truthy env.dbName then
    StartupOutcome.attemptConnection
      (connUrl (env.dbUser.getD "") (env.dbPassword.getD "") dbHost (env.dbName.getD ""))
  else
    StartupOutcome.fatalConfig

/-- The hypothetical catalog entry of the specification's end-to-end
scenario (claim C2): template, parameter list and sortable columns are the
claim's stated inputs. -/
def specScenarioEntry : CatalogEntry where
  id := 99
  description := "End-to-end scenario entry"
  sql := "SELECT name FROM Listings WHERE price <= :max_price \x7border_by_clause\x7d"
  params := [⟨"max_price", "Max price", ParamKind.pfloat⟩]
  sortable_columns := ["name"]

theorem hasSubL_cons_false {pat : List Char} {c : Char} {cs : List Char}
    (h : hasSubL pat (c :: cs) = false) :
    pat.isPrefixOf (c :: cs) = false ∧ hasSubL pat cs = false := by
  simp only [hasSubL, Bool.or_eq_false_iff] at h
  exact h

theorem hasSubL_drop {pat : List Char} :
    ∀ (l : List Char) (n : Nat), hasSubL pat l = false → hasSubL pat (l.drop n) = false := by
  intro l
  induction l with
  | nil => intro n h; simpa [List.drop_nil] using h
  | cons c cs ih =>
    intro n h
    cases n with
    | zero => exact h
    | succ m => simpa [List.drop_succ_cons] using ih m (hasSubL_cons_false h).2

/-- On input with no `\x7bwhere_clause\x7d` slot, the fuel-indexed two-slot
substitution coincides with substituting only the order-by slot, whatever
the WHERE text is. -/
theorem substSlotsAux_no_where (wc obc : String) :
    ∀ (fuel : Nat) (l : List Char), hasSubL whereSlot l = false →
      substSlotsAux wc obc fuel l = substOrderByOnlyAux obc fuel l := by
  intro fuel
  induction fuel with
  | zero =>
    intro l _
    cases l with
    | nil => rfl
    | cons c cs => rfl
  | succ n ih =>
    intro l h
    cases l with
    | nil => rfl
    | cons c cs =>
      obtain ⟨hp, ht⟩ := hasSubL_cons_false h
      by_cases hob : orderBySlot.isPrefixOf (c :: cs)
      · simp only [substSlotsAux, substOrderByOnlyAux, hp, hob, if_true,
          Bool.false_eq_true, if_false]
        rw [ih _ (hasSubL_drop cs _ ht)]
      · simp only [substSlotsAux, substOrderByOnlyAux, hp, hob,
          Bool.false_eq_true, if_false]
        rw [ih cs ht]

/-- String-level form of `substSlotsAux_no_where`: a template with no
`\x7bwhere_clause\x7d` slot formats identically for every WHERE text. -/
theorem pyFormat_no_where (t : String)
    (h : hasSubstr t "\x7bwhere_clause\x7d" = false) (wc obc : String) :
    pyFormat t wc obc = pyFormatOrderByOnly t obc := by
  unfold pyFormat pyFormatOrderByOnly substSlots substOrderByOnly
  rw [substSlotsAux_no_where wc obc t.data.length t.data h]

/-- The WHERE fragments `processParams` collects are exactly the
per-parameter convention applied to the bound names, in insertion
order. -/
theorem processParams_fragments :
    ∀ (inputs : List (String × ParamKind × String)) (ws : List String)
      (ps : List (String × Value)),
      processParams inputs = Except.ok (ws, ps) →
      ws = ps.map (fun p => whereFragment p.1) := by
  intro inputs
  induction inputs with
  | nil =>
    intro ws ps h
    simp only [processParams, Except.ok.injEq, Prod.mk.injEq] at h
    simp [← h.1, ← h.2]
  | cons a rest ih =>
    obtain ⟨name, kind, raw⟩ := a
    intro ws ps h
    simp only [processParams] at h
    split at h
    · exact ih ws ps h
    · split at h
      · exact absurd h (by simp)
      · split at h
        · exact absurd h (by simp)
        · rename_i val heq ws' ps' hrest
          simp only [Except.ok.injEq, Prod.mk.injEq] at h
          obtain ⟨hws, hps⟩ := h
          subst hws
          subst hps
          simp [ih _ _ hrest]

set_option maxRecDepth 100000 in
/-- C1 counterexample: with bound params `min_price=100, max_price=500`
(float fields, as in the catalog), the clause builder emits double-quoted
column identifiers, so the WHERE text is
`WHERE "price" >= :min_price AND "price" <= :max_price` and does NOT
contain the claimed unquoted fragment
`price >= :min_price AND price <= :max_price`. -/
theorem c1_counterexample :
    processParams [("min_price", ParamKind.pfloat, "100"), ("max_price", ParamKind.pfloat, "500")] =
      Except.ok (["\x22price\x22 >= :min_price", "\x22price\x22 <= :max_price"],
        [("min_price", Value.vFloat 100), ("max_price", Value.vFloat 500)])
    ∧ whereClauseOf ["\x22price\x22 >= :min_price", "\x22price\x22 <= :max_price"] =
        "WHERE \x22price\x22 >= :min_price AND \x22price\x22 <= :max_price"
    ∧ hasSubstr "WHERE \x22price\x22 >= :min_price AND \x22price\x22 <= :max_price"
        "price >= :min_price AND price <= :max_price" = false := by
  refine ⟨by decide, by decide, by decide⟩

set_option maxRecDepth 100000 in
/-- C1 (amended): for each bound parameter the clause builder emits
`"<column>" >= :<name>` (column in double quotes) when the name starts
with `min_`, `"<column>" <= :<name>` for `max_`, and `"<column>" = :<name>`
otherwise, where `<column>` is the name with every occurrence of the
prefix removed; fragments follow parameter insertion order and are joined
with ` AND ` after a `WHERE ` keyword; the `min_price=100, max_price=500`
example yields
`WHERE "price" >= :min_price AND "price" <= :max_price` and binds exactly
those two parameters. -/
theorem c1_where_builder :
    (∀ name : String, startsWithL name "min_" = true →
      whereFragment name = "\x22" ++ pyReplace name "min_" "" ++ "\x22 >= :" ++ name)
    ∧ (∀ name : String, startsWithL name "min_" = false → startsWithL name "max_" = true →
      whereFragment name = "\x22" ++ pyReplace name "max_" "" ++ "\x22 <= :" ++ name)
    ∧ (∀ name : String, startsWithL name "min_" = false → startsWithL name "max_" = false →
      whereFragment name = "\x22" ++ name ++ "\x22 = :" ++ name)
    ∧ (∀ (inputs : List (String × ParamKind × String)) (ws : List String)
        (ps : List (String × Value)),
        processParams inputs = Except.ok (ws, ps) →
        ws = ps.map (fun p => whereFragment p.1))
    ∧ (∀ ws : List String, ws ≠ [] →
        whereClauseOf ws = "WHERE " ++ joinSep " AND " ws)
    ∧ processParams [("min_price", ParamKind.pfloat, "100"), ("max_price", ParamKind.pfloat, "500")] =
        Except.ok (["\x22price\x22 >= :min_price", "\x22price\x22 <= :max_price"],
          [("min_price", Value.vFloat 100), ("max_price", Value.vFloat 500)])
    ∧ whereClauseOf ["\x22price\x22 >= :min_price", "\x22price\x22 <= :max_price"] =
        "WHERE \x22price\x22 >= :min_price AND \x22price\x22 <= :max_price" := by
  refine ⟨?_, ?_, ?_, processParams_fragments, ?_, by decide, by decide⟩
  · intro name h
    simp [whereFragment, h]
  · intro name h1 h2
    simp [whereFragment, h1, h2]
  · intro name h1 h2
    simp [whereFragment, h1, h2]
  · intro ws h
    cases ws with
    | nil => exact absurd rfl h
    | cons a t => simp [whereClauseOf]

set_option maxRecDepth 100000 in
/-- C1 witness: the amended theorem applied at concrete inputs. -/
theorem c1_where_builder_witness :
    whereFragment "min_price" = "\x22" ++ pyReplace "min_price" "min_" "" ++ "\x22 >= :" ++ "min_price"
    ∧ whereFragment "room_type" = "\x22" ++ "room_type" ++ "\x22 = :" ++ "room_type"
    ∧ whereClauseOf ["a", "b"] = "WHERE " ++ joinSep " AND " ["a", "b"] :=
  ⟨c1_where_builder.1 "min_price" (by decide),
   c1_where_builder.2.2.1 "room_type" (by decide) (by decide),
   c1_where_builder.2.2.2.2.1 ["a", "b"] (by decide)⟩

set_option maxRecDepth 100000 in
/-- C2 counterexample: on the specification's end-to-end scenario the
pipeline produces
`SELECT name FROM Listings WHERE price <= :max_price ORDER BY "name" ASC`
(sort identifier double-quoted), not the claimed
`... ORDER BY name ASC`; the binding `max_price = 500.0` is as claimed. -/
theorem c2_counterexample :
    runQuery specScenarioEntry [("max_price", ParamKind.pfloat, "500")] "name" "Ascending" =
      Except.ok ⟨"SELECT name FROM Listings WHERE price <= :max_price ORDER BY \x22name\x22 ASC",
        [("max_price", Value.vFloat 500)]⟩
    ∧ runQuery specScenarioEntry [("max_price", ParamKind.pfloat, "500")] "name" "Ascending" ≠
        Except.ok ⟨"SELECT name FROM Listings WHERE price <= :max_price ORDER BY name ASC",
          [("max_price", Value.vFloat 500)]⟩ := by
  refine ⟨by decide, by decide⟩

set_option maxRecDepth 100000 in
/-- C2 (amended): the end-to-end scenario — catalog entry with template
`SELECT name FROM Listings WHERE price <= :max_price \x7border_by_clause\x7d`,
params `[(max_price, Max price, float)]`, sortable `[name]`, input
`max_price="500"`, sort `name` ascending — produces the final text
`SELECT name FROM Listings WHERE price <= :max_price ORDER BY "name" ASC`
(sort identifier double-quoted) and binds `max_price = 500.0`. -/
theorem c2_end_to_end :
    runQuery specScenarioEntry [("max_price", ParamKind.pfloat, "500")] "name" "Ascending" =
      Except.ok ⟨"SELECT name FROM Listings WHERE price <= :max_price ORDER BY \x22name\x22 ASC",
        [("max_price", Value.vFloat 500)]⟩ := by
  decide

set_option maxRecDepth 100000 in
/-- C3: every shipped catalog entry's template contains the
`\x7border_by_clause\x7d` slot and no `\x7bwhere_clause\x7d` slot, so the
formatted statement equals the template with only the order-by slot
substituted — whatever WHERE fragment `runQuery` assembled, it is never
substituted into the executed SQL text. -/
theorem c3_no_where_slot :
    ∀ e ∈ queries,
      hasSubstr e.sql "\x7border_by_clause\x7d" = true
      ∧ hasSubstr e.sql "\x7bwhere_clause\x7d" = false
      ∧ (∀ wc obc : String, pyFormat e.sql wc obc = pyFormatOrderByOnly e.sql obc)
      ∧ (∀ (inputs : List (String × ParamKind × String)) (sortColumn sortOrder : String)
          (stmt : FinalStatement),
          runQuery e inputs sortColumn sortOrder = Except.ok stmt →
          stmt.text = pyFormatOrderByOnly e.sql
            (orderByClauseOf sortColumn sortOrder e.sortable_columns)) := by
  have hall : queries.all
      (fun e => hasSubstr e.sql "\x7border_by_clause\x7d" && !hasSubstr e.sql "\x7bwhere_clause\x7d") = true := by
    decide
  intro e he
  have hb := List.all_eq_true.mp hall e he
  rw [Bool.and_eq_true, Bool.not_eq_true'] at hb
  refine ⟨hb.1, hb.2, fun wc obc => pyFormat_no_where e.sql hb.2 wc obc, ?_⟩
  intro inputs sortColumn sortOrder stmt h
  unfold runQuery at h
  split at h
  · exact absurd h (by simp)
  · simp only [Except.ok.injEq] at h
    rw [← h]
    exact pyFormat_no_where e.sql hb.2 _ _

set_option maxRecDepth 100000 in
/-- C3 witness: the theorem applied to the first catalog entry with a
concrete WHERE fragment. -/
theorem c3_no_where_slot_witness :
    hasSubstr q1.sql "\x7bwhere_clause\x7d" = false
    ∧ pyFormat q1.sql "WHERE \x22price\x22 >= :min_price" "ORDER BY \x22name\x22 ASC" =
        pyFormatOrderByOnly q1.sql "ORDER BY \x22name\x22 ASC" :=
  ⟨(c3_no_where_slot q1 (by simp [queries])).2.1,
   (c3_no_where_slot q1 (by simp [queries])).2.2.1 "WHERE \x22price\x22 >= :min_price" "ORDER BY \x22name\x22 ASC"⟩

set_option maxRecDepth 100000 in
/-- C4: in the filterable variant (app.py), an empty raw value causes the
parameter to be omitted from filtering entirely — it is neither coerced
nor bound and contributes no WHERE fragment; in the simple variant
(modelled from the spec, its source not being under src/), every field is
mandatory and an empty value yields a ValidationError naming the field.
A whitespace-only value of an integer field shows the omission is before
coercion: no coercion error is raised. -/
theorem c4_empty_values :
    (∀ (name : String) (kind : ParamKind) (raw : String)
        (rest : List (String × ParamKind × String)), pyStrip raw = "" →
      validateMandatory ((name, kind, raw) :: rest) =
        Except.error ("Missing required value for \x22" ++ pyReplace name "_" " " ++ "\x22."))
    ∧ (∀ (name : String) (kind : ParamKind) (raw : String)
        (rest : List (String × ParamKind × String)), pyStrip raw = "" →
      processParams ((name, kind, raw) :: rest) = processParams rest)
    ∧ processParams [("min_guests", ParamKind.pint, "   ")] = Except.ok ([], []) := by
  refine ⟨?_, ?_, by decide⟩
  · intro name kind raw rest h
    simp [validateMandatory, h]
  · intro name kind raw rest h
    simp [processParams, h]

set_option maxRecDepth 100000 in
/-- C4 witness: the theorem applied at concrete inputs. -/
theorem c4_empty_values_witness :
    validateMandatory [("min_guests", ParamKind.pint, "")] =
      Except.error ("Missing required value for \x22" ++ pyReplace "min_guests" "_" " " ++ "\x22.")
    ∧ processParams [("max_price", ParamKind.pfloat, "")] = processParams [] :=
  ⟨c4_empty_values.1 "min_guests" ParamKind.pint "" [] (by decide),
   c4_empty_values.2.1 "max_price" ParamKind.pfloat "" [] (by decide)⟩

/-- C5: `QueryThread.run` delivers exactly one completion notification per
invocation: the full result set through `results_ready` on success, or the
error text through `error_occurred` on failure — never both, and never a
result alongside an error. -/
theorem c5_single_completion :
    (∀ db : Except String DataFrame, (queryThreadRun db).length = 1)
    ∧ (∀ e : String, queryThreadRun (Except.error e) = [Notification.errorOccurred e])
    ∧ (∀ df : DataFrame, queryThreadRun (Except.ok df) = [Notification.resultsReady df])
    ∧ (∀ (db : Except String DataFrame) (rows : DataFrame) (msg : String),
        Notification.resultsReady rows ∈ queryThreadRun db →
        Notification.errorOccurred msg ∉ queryThreadRun db)
    ∧ (∀ (e : String) (rows : DataFrame),
        Notification.resultsReady rows ∉ queryThreadRun (Except.error e)) := by
  refine ⟨?_, fun e => rfl, fun df => rfl, ?_, ?_⟩
  · intro db
    cases db <;> rfl
  · intro db rows msg hmem
    cases db with
    | ok df => simp [queryThreadRun]
    | error e => simp [queryThreadRun] at hmem
  · intro e rows
    simp [queryThreadRun]

/-- C5 witness: the theorem applied at concrete database outcomes. -/
theorem c5_single_completion_witness :
    (queryThreadRun (Except.ok ([] : DataFrame))).length = 1
    ∧ Notification.errorOccurred "boom" ∉ queryThreadRun (Except.ok ([] : DataFrame)) :=
  ⟨c5_single_completion.1 (Except.ok []),
   c5_single_completion.2.2.2.1 (Except.ok []) [] "boom" (by decide)⟩

set_option maxRecDepth 100000 in
/-- C6 counterexample: with sort column `name` (a member of
`sortable_columns`) ascending, the builder emits `ORDER BY "name" ASC`
with the identifier double-quoted, not the claimed `ORDER BY name ASC`. -/
theorem c6_counterexample :
    orderByClauseOf "name" "Ascending" ["name"] = "ORDER BY \x22name\x22 ASC"
    ∧ orderByClauseOf "name" "Ascending" ["name"] ≠ "ORDER BY name ASC" := by
  refine ⟨by decide, by decide⟩

set_option maxRecDepth 100000 in
/-- C6 (amended): a non-empty sort column that is a member of
`sortable_columns` yields `ORDER BY "<sort_column>" ASC|DESC` (identifier
double-quoted) according to the chosen direction; an empty sort column or
one not in `sortable_columns` yields the empty ORDER BY slot, silently,
never an error; in particular `price` against sortable `[name]` yields the
empty clause. -/
theorem c6_order_by_builder :
    (∀ (col ord : String) (sortable : List String),
      (col == "") = false → sortable.contains col = true →
      orderByClauseOf col ord sortable =
        "ORDER BY \x22" ++ col ++ "\x22 " ++ (if ord == "Ascending" then "ASC" else "DESC"))
    ∧ (∀ (col ord : String) (sortable : List String),
      (col == "") = true ∨ sortable.contains col = false →
      orderByClauseOf col ord sortable = "")
    ∧ orderByClauseOf "price" "Ascending" ["name"] = "" := by
  refine ⟨?_, ?_, by decide⟩
  · intro col ord sortable h1 h2
    have hc : (col != "" && sortable.contains col) = true := by
      rw [bne, h1, h2]
      rfl
    simp only [orderByClauseOf, hc, if_true]
  · intro col ord sortable h
    have hc : (col != "" && sortable.contains col) = false := by
      rcases h with h | h
      · rw [bne, h]
        rfl
      · rw [h, Bool.and_false]
    simp only [orderByClauseOf, hc, Bool.false_eq_true, if_false]

set_option maxRecDepth 100000 in
/-- C6 witness: the amended theorem applied at concrete inputs. -/
theorem c6_order_by_builder_witness :
    orderByClauseOf "name" "Descending" ["name"] =
      "ORDER BY \x22" ++ "name" ++ "\x22 " ++ (if "Descending" == "Ascending" then "ASC" else "DESC")
    ∧ orderByClauseOf "" "Ascending" ["name"] = "" :=
  ⟨c6_order_by_builder.1 "name" "Descending" ["name"] (by decide) (by decide),
   c6_order_by_builder.2.1 "" "Ascending" ["name"] (Or.inl (by decide))⟩

set_option maxRecDepth 100000 in
/-- C7: coercion parses `int` fields with strict base-10 integer parsing
and `float` fields with decimal float parsing; `"12.5"` as float yields
`12.5` (the rational `mkRat 25 2`); a non-coercible value yields the `ValueError` message naming the
field (underscores shown as spaces, as the source formats it) and its
expected kind, and `runQuery` then returns the error without dispatching
any statement to the executor. -/
theorem c7_coercion :
    coerceParam "max_price" ParamKind.pfloat "12.5" = Except.ok (Value.vFloat (mkRat 25 2))
    ∧ coerceParam "min_guests" ParamKind.pint "abc" =
        Except.error "Invalid integer value for \x22min guests\x22."
    ∧ (∀ name raw : String, pyIntParse raw = none →
        coerceParam name ParamKind.pint raw =
          Except.error ("Invalid integer value for \x22" ++ pyReplace name "_" " " ++ "\x22."))
    ∧ (∀ name raw : String, pyFloatParse raw = none →
        coerceParam name ParamKind.pfloat raw =
          Except.error ("Invalid float value for \x22" ++ pyReplace name "_" " " ++ "\x22."))
    ∧ (∀ (entry : CatalogEntry) (inputs : List (String × ParamKind × String))
        (sortColumn sortOrder msg : String),
        processParams inputs = Except.error msg →
        runQuery entry inputs sortColumn sortOrder = Except.error msg)
    ∧ hasSubstr "Invalid integer value for \x22min guests\x22." "min guests" = true
    ∧ hasSubstr "Invalid integer value for \x22min guests\x22." "integer" = true := by
  refine ⟨by decide, by decide, ?_, ?_, ?_, by decide, by decide⟩
  · intro name raw h
    simp [coerceParam, h]
  · intro name raw h
    simp [coerceParam, h]
  · intro entry inputs sortColumn sortOrder msg h
    simp [runQuery, h]

set_option maxRecDepth 100000 in
/-- C7 witness: the theorem applied at concrete inputs. -/
theorem c7_coercion_witness :
    coerceParam "min_guests" ParamKind.pint "1.5" =
      Except.error ("Invalid integer value for \x22" ++ pyReplace "min_guests" "_" " " ++ "\x22.")
    ∧ runQuery q1 [("min_guests", ParamKind.pint, "abc")] "" "" =
        Except.error "Invalid integer value for \x22min guests\x22." :=
  ⟨c7_coercion.2.2.1 "min_guests" "1.5" (by decide),
   c7_coercion.2.2.2.2.1 q1 [("min_guests", ParamKind.pint, "abc")] "" ""
     "Invalid integer value for \x22min guests\x22." (by decide)⟩

set_option maxRecDepth 100000 in
/-- C8: for every shipped catalog entry the declared parameter names are
unique and every `:name` bind placeholder of the SQL template appears in
the declared parameter list. -/
theorem c8_catalog_complete :
    ∀ e ∈ queries,
      (e.params.map ParamSpec.name).Nodup
      ∧ ∀ n ∈ placeholdersOf e.sql, n ∈ e.params.map ParamSpec.name := by
  have hall : queries.all (fun e =>
      ((placeholdersOf e.sql).all (fun n => (e.params.map ParamSpec.name).contains n)) &&
      decide (e.params.map ParamSpec.name).Nodup) = true := by decide
  intro e he
  have hb := List.all_eq_true.mp hall e he
  rw [Bool.and_eq_true] at hb
  refine ⟨of_decide_eq_true hb.2, ?_⟩
  intro n hn
  have := List.all_eq_true.mp hb.1 n hn
  simpa using this

set_option maxRecDepth 100000 in
/-- C8 witness: the theorem applied to the first catalog entry and one of
its placeholders. -/
theorem c8_catalog_complete_witness :
    (q1.params.map ParamSpec.name).Nodup
    ∧ "min_guests" ∈ q1.params.map ParamSpec.name :=
  ⟨(c8_catalog_complete q1 (by simp [queries])).1,
   (c8_catalog_complete q1 (by simp [queries])).2 "min_guests" (by decide)⟩

/-- C9: `displayDataAnalysisResults` — including its chart-failure
`except` path, which clears only the analysis canvas and info box — never
reads or writes the Query tab's results table, for every prior state,
analysis kind and render outcome; `displayResults` is the function that
does write the table. -/
theorem c9_chart_failure_frame :
    (∀ (st : ViewState) (analysisType : String) (outcome : RenderOutcome),
      (displayDataAnalysisResults st analysisType outcome).resultsTable = st.resultsTable)
    ∧ (∀ (st : ViewState) (df : DataFrame), (displayResults st df).resultsTable = df) := by
  constructor
  · intro st analysisType outcome
    unfold displayDataAnalysisResults
    split
    · cases outcome <;> rfl
    · rfl
  · intro st df
    rfl

set_option maxRecDepth 100000 in
/-- C10 counterexample: with `DB_USER`, `DB_PASSWORD` and `DB_NAME` set
but `DB_HOST` absent from the environment, startup is NOT fatal: the host
defaults to `localhost` and a connection is attempted. -/
theorem c10_counterexample :
    mainWindowInit ⟨some "u", some "p", none, some "d"⟩ =
      StartupOutcome.attemptConnection "postgresql+psycopg2://u:p@localhost/d"
    ∧ mainWindowInit ⟨some "u", some "p", none, some "d"⟩ ≠ StartupOutcome.fatalConfig := by
  refine ⟨by decide, by decide⟩

/-- C10 (amended): startup is fatal — diagnostic, `sys.exit(1)`, and no
connection attempted — when `DB_USER`, `DB_PASSWORD` or `DB_NAME` is
absent or empty, or when `DB_HOST` is set to the empty string; an absent
`DB_HOST` is not fatal: it defaults to `localhost` and the connection
attempt proceeds. -/
theorem c10_startup_check :
    (∀ env : Env, truthy env.dbUser = false → mainWindowInit env = StartupOutcome.fatalConfig)
    ∧ (∀ env : Env, truthy env.dbPassword = false → mainWindowInit env = StartupOutcome.fatalConfig)
    ∧ (∀ env : Env, truthy env.dbName = false → mainWindowInit env = StartupOutcome.fatalConfig)
    ∧ (∀ env : Env, env.dbHost = some "" → mainWindowInit env = StartupOutcome.fatalConfig)
    ∧ (∀ env : Env, truthy env.dbUser = true → truthy env.dbPassword = true →
        truthy env.dbName = true → env.dbHost ≠ some "" →
        mainWindowInit env = StartupOutcome.attemptConnection
          (connUrl (env.dbUser.getD "") (env.dbPassword.getD "")
            (env.dbHost.getD "localhost") (env.dbName.getD ""))) := by
  refine ⟨?_, ?_, ?_, ?_, ?_⟩
  · intro env h
    simp [mainWindowInit, h]
  · intro env h
    simp [mainWindowInit, h]
  · intro env h
    simp [mainWindowInit, h]
  · intro env h
    simp [mainWindowInit, h]
  · intro env h1 h2 h3 h4
    cases hh : env.dbHost with
    | none => simp [mainWindowInit, h1, h2, h3, hh]
    | some s =>
      have hs : s ≠ "" := by
        intro e
        rw [e] at hh
        exact h4 hh
      have hsb : (s == "") = false := by simpa using hs
      simp [mainWindowInit, h1, h2, h3, hh, hsb, hs]

set_option maxRecDepth 100000 in
/-- C10 witness: the amended theorem applied at concrete environments. -/
theorem c10_startup_check_witness :
    mainWindowInit ⟨none, some "p", some "h", some "d"⟩ = StartupOutcome.fatalConfig
    ∧ mainWindowInit ⟨some "u", some "p", some "h", some "d"⟩ =
        StartupOutcome.attemptConnection
          (connUrl ((some "u").getD "") ((some "p").getD "")
            ((some "h").getD "localhost") ((some "d").getD "")) :=
  ⟨c10_startup_check.1 ⟨none, some "p", some "h", some "d"⟩ (by decide),
   c10_startup_check.2.2.2.2 ⟨some "u", some "p", some "h", some "d"⟩
     (by decide) (by decide) (by decide) (by decide)⟩

end Airbnb
